import Mathlib

/-!
Verification of the tile-mosaic subsystem of the urbanworm repository
(src/urbanworm/utils.py, function tms_to_geotiff and its helpers).

The Python code is shallowly embedded: pure numeric helpers become Lean
functions over the reals, the stateful parts (file system, HTTP attempts,
canvas composition) become explicit state passing, and fallible code
returns Except. Pixel contents of decoded tile images are abstracted to a
structure carrying dimensions, color mode and the all-transparent flag,
which is all the composition logic inspects.
-/

namespace Urbanworm

/-! ### Source dispatch (tms_to_geotiff, lines 227-247)

The xyz_tiles registry of named providers, keyed by upper-cased name.
`get_basemaps()` queries the external xyzservices package at runtime, so the
basemap dictionary is a parameter here. -/

/-- Python str.upper (over the character list; the built-in String.toUpper is
opaque to the kernel). -/
def str_upper (s : String) : String := String.mk (s.data.map Char.toUpper)

/-- Python str.startswith. -/
def str_starts_with (s p : String) : Bool := p.data.isPrefixOf s.data

def xyz_tiles : List (String × String) :=
  [("OPENSTREETMAP", "https://tile.openstreetmap.org/{z}/{x}/{y}.png"),
   ("ROADMAP", "https://mt1.google.com/vt/lyrs=m&x={x}&y={y}&z={z}"),
   ("SATELLITE", "https://mt1.google.com/vt/lyrs=s&x={x}&y={y}&z={z}"),
   ("TERRAIN", "https://mt1.google.com/vt/lyrs=p&x={x}&y={y}&z={z}"),
   ("HYBRID", "https://mt1.google.com/vt/lyrs=y&x={x}&y={y}&z={z}")]

/-- The source argument is either a string or some non-string value. -/
inductive SourceArg
  | str (s : String)
  | nonstr

/-- Embeds the dispatch on `source` in tms_to_geotiff. The Python code is
an if/elif/elif chain with no final else inside the string branch: a string
that matches no named provider, no basemap name and does not start with
"http" falls through unchanged, exactly like the explicit
`elif source.startswith("http"): pass` branch. The ValueError is raised
only in the non-string branch. -/
def resolve_source (basemaps : List (String × String)) : SourceArg → Except String String
  | SourceArg.str s =>
    match xyz_tiles.lookup (str_upper s) with
    | some url => Except.ok url
    | none =>
      match basemaps.lookup s with
      | some url => Except.ok url
      | none =>
        if str_starts_with s "http" then Except.ok s
        else Except.ok s
  | SourceArg.nonstr =>
    Except.error "source must be one of OpenStreetMap, ROADMAP, SATELLITE, TERRAIN, HYBRID, or a URL"

/-! ### Output-exists early return (tms_to_geotiff, lines 221-225)

The file system is an association list from paths to byte lists. The write
performed later by draw_tile via gdal driver.Create is modelled as a single
byte-list replacement at the output path. The returned Bool records whether
the early-return branch (file exists and overwrite is false) was taken. -/

abbrev FS := List (String × List Nat)

def fs_exists (fs : FS) (p : String) : Bool := (fs.lookup p).isSome

def fs_write (fs : FS) (p : String) (b : List Nat) : FS :=
  (p, b) :: fs.eraseP (fun q => q.1 == p)

def tms_write_step (fs : FS) (output : String) (overwrite : Bool) (b : List Nat) :
    FS × Bool :=
  if overwrite = false ∧ fs_exists fs output = true then (fs, true)
  else (fs_write fs output b, false)

/-! ### Post-processing control flow (tms_to_geotiff, lines 450-459)

After draw_tile has written the base EPSG:3857 raster, the code returns the
in-memory image when return_image is set, otherwise reprojects when the
requested CRS differs from EPSG:3857, otherwise converts to COG when
requested. The steps actually executed are recorded in order. -/

inductive PostStep
  | writeBase
  | returnImage
  | reprojectStep (dst : String) (toCog : Bool)
  | cogStep

def tms_pipeline_steps (return_image : Bool) (crs : String) (to_cog : Bool) :
    List PostStep :=
  [PostStep.writeBase] ++
    (if return_image then [PostStep.returnImage]
     else if str_upper crs ≠ "EPSG:3857" then [PostStep.reprojectStep crs to_cog]
     else if to_cog then [PostStep.cogStep]
     else [])

/-! ### Tile fetching (get_tile, lines 364-379)

An HTTP attempt either raises (none) or yields a Response. The retry loop
starts with retry = 3 and re-raises after the third failed attempt; a
response obtained on any attempt is then post-processed: status 404 means
absent, an empty body means absent, any other 4xx/5xx status raises via
raise_for_status, and otherwise the body bytes are returned. -/

structure Response where
  status : Nat
  content : List Nat

def process_response (r : Response) : Except String (Option (List Nat)) :=
  if r.status = 404 then Except.ok none
  else if r.content = [] then Except.ok none
  else if 400 ≤ r.status ∧ r.status < 600 then Except.error "HTTPError"
  else Except.ok (some r.content)

def fetch_with_retry (att : Nat → Option Response) : Nat → Nat → Except String Response
  | 0, _ => Except.error "NetworkError"
  | (retry + 1), i =>
    match att i with
    | some r => Except.ok r
    | none =>
      if retry = 0 then Except.error "NetworkError"
      else fetch_with_retry att retry (i + 1)

def get_tile (att : Nat → Option Response) : Except String (Option (List Nat)) :=
  match fetch_with_retry att 3 0 with
  | Except.error e => Except.error e
  | Except.ok r => process_response r

/-! ### Zoom from resolution (resolution_to_zoom_level, lines 249-259)

Python floats are modelled by the reals. `int()` truncates toward zero.
`math.log2` raises ValueError on a non-positive argument and the division
raises ZeroDivisionError when resolution is zero; both become Except
errors. -/

/-- Python int() applied to a real: truncation toward zero. -/
noncomputable def float_to_int (x : ℝ) : ℤ := if 0 ≤ x then ⌊x⌋ else ⌈x⌉

/-- Web Mercator resolution in meters at zoom level 0 (the literal in the
source). -/
noncomputable def initial_resolution : ℝ := 156543.03392804097

noncomputable def resolution_to_zoom_level (resolution : ℝ) : Except String ℤ :=
  if resolution = 0 then Except.error "ZeroDivisionError"
  else if resolution < 0 then Except.error "ValueError: math domain error"
  else Except.ok (float_to_int (Real.logb 2 (initial_resolution / resolution)))

/-! ### Coordinate math (from4326_to3857 lines 297-302, deg2num lines
304-309, draw_tile lines 384-401 and 433-437) -/

/-- math.radians. -/
noncomputable def radians (d : ℝ) : ℝ := d * Real.pi / 180

noncomputable def EARTH_EQUATORIAL_RADIUS : ℝ := 6378137.0

/-- Forward spherical-Mercator projection as written in the source:
x from the longitude in radians, y from log of tan of radians(45 + lat/2). -/
noncomputable def from4326_to3857 (lat lon : ℝ) : ℝ × ℝ :=
  (radians lon * EARTH_EQUATORIAL_RADIUS,
   Real.log (Real.tan (radians (45 + lat / 2))) * EARTH_EQUATORIAL_RADIUS)

/-- Slippy-map fractional tile coordinates at a zoom level. -/
noncomputable def deg2num (lat lon : ℝ) (zoom : ℕ) : ℝ × ℝ :=
  let lat_r := radians lat
  let n : ℝ := 2 ^ zoom
  ((lon + 180) / 360 * n,
   (1 - Real.log (Real.tan lat_r + 1 / Real.cos lat_r) / Real.pi) / 2 * n)

/-- The geotransform computed at the end of draw_tile from the two bbox
corners and the final image size. -/
noncomputable def draw_tile_geotransform (lat0 lon0 lat1 lon1 : ℝ) (w h : ℕ) :
    ℝ × ℝ × ℝ × ℝ × ℝ × ℝ :=
  let p0 := from4326_to3857 lat0 lon0
  let p1 := from4326_to3857 lat1 lon1
  let pwidth := |p1.1 - p0.1| / (w : ℝ)
  let pheight := |p1.2 - p0.2| / (h : ℝ)
  (min p0.1 p1.1, pwidth, 0, max p0.2 p1.2, 0, -pheight)

/-- Modelled from the spec wording for comparison: x = R times lonRad,
y = R times ln(tan(pi/4 + latRad/2)), R = 6378137.0. -/
noncomputable def spec_mercator (lat lon : ℝ) : ℝ × ℝ :=
  (EARTH_EQUATORIAL_RADIUS * radians lon,
   EARTH_EQUATORIAL_RADIUS * Real.log (Real.tan (Real.pi / 4 + radians lat / 2)))

/-- Modelled from the spec wording for comparison: GeoTransform =
(min(x0,x1), pixelWidth, 0, max(y0,y1), 0, minus pixelHeight) with the
pixel sizes taken from the projected corner span over the image size. -/
noncomputable def spec_geotransform (lat0 lon0 lat1 lon1 : ℝ) (w h : ℕ) :
    ℝ × ℝ × ℝ × ℝ × ℝ × ℝ :=
  let q0 := spec_mercator lat0 lon0
  let q1 := spec_mercator lat1 lon1
  (min q0.1 q1.1, |q1.1 - q0.1| / (w : ℝ), 0,
   max q0.2 q1.2, 0, -(|q1.2 - q0.2| / (h : ℝ)))

/-- Python range(a, b) over the integers. -/
def int_range (lo hi : ℤ) : List ℤ :=
  (List.range (hi - lo).toNat).map (fun (k : ℕ) => lo + (k : ℤ))

/-- Python range(floor(a), ceil(b)) applied to fractional coordinates. -/
noncomputable def tile_range (a b : ℝ) : List ℤ := int_range ⌊a⌋ ⌈b⌉

/-- itertools.product of the two index ranges, x-major like the source. -/
def corner_product (xs ys : List ℤ) : List (ℤ × ℤ) :=
  xs.flatMap (fun x => ys.map (fun y => (x, y)))

/-- The tile corners requested by draw_tile: fractional corner coordinates
from deg2num, sorted componentwise, then floor/ceil index ranges. -/
noncomputable def draw_tile_corners (lat0 lon0 lat1 lon1 : ℝ) (zoom : ℕ) :
    List (ℤ × ℤ) :=
  let c0 := deg2num lat0 lon0 zoom
  let c1 := deg2num lat1 lon1 zoom
  corner_product
    (tile_range (min c0.1 c1.1) (max c0.1 c1.1))
    (tile_range (min c0.2 c1.2) (max c0.2 c1.2))

/-! ### Mosaic composition (paste_tile lines 323-349, finish_picture lines
351-362, draw_tile lines 394-413)

A decoded tile image is abstracted to its pixel dimensions, its color mode
and whether all its channels are fully transparent (the is_empty test);
the pixel payload itself is irrelevant to the control flow verified here.
PIL modes other than RGB are collapsed to RGBA following the dichotomy
`mode = "RGB" if im.mode == "RGB" else "RGBA"` in the source. The canvas
records its creation mode and size and the ordered list of pastes that hit
it. Decoding of fetched bytes through Image.open is a parameter. -/

inductive Mode
  | RGB
  | RGBA

structure TileImg where
  width : ℤ
  height : ℤ
  mode : Mode
  allTransparent : Bool

structure Canvas where
  mode : Mode
  width : ℤ
  height : ℤ
  pastes : List ((ℤ × ℤ) × TileImg)

/-- One paste step: a missing tile leaves everything unchanged; otherwise
the canvas is created from the first tile (its size becoming base_size) and
the tile is pasted at offset (size x times dx, size y times dy) unless it is
a fully transparent non-RGB tile. -/
def paste_tile (bigim : Option Canvas) (base_size : ℤ × ℤ) (tile : Option TileImg)
    (corner_xy : ℤ × ℤ) (bb : ℤ × ℤ × ℤ × ℤ) : Option Canvas × (ℤ × ℤ) :=
  match tile with
  | none => (bigim, base_size)
  | some im =>
    let mode := match im.mode with
      | Mode.RGB => Mode.RGB
      | Mode.RGBA => Mode.RGBA
    let size := (im.width, im.height)
    let st :=
      match bigim with
      | none =>
        (Canvas.mk mode (size.1 * (bb.2.2.1 - bb.1)) (size.2 * (bb.2.2.2 - bb.2.1)) [],
         size)
      | some c => (c, base_size)
    let dx := |corner_xy.1 - bb.1|
    let dy := |corner_xy.2 - bb.2.1|
    let xy0 := (st.2.1 * dx, st.2.2 * dy)
    let newim :=
      match im.mode with
      | Mode.RGB => Canvas.mk st.1.mode st.1.width st.1.height (st.1.pastes ++ [(xy0, im)])
      | Mode.RGBA =>
        if im.allTransparent then st.1
        else Canvas.mk st.1.mode st.1.width st.1.height (st.1.pastes ++ [(xy0, im)])
    (some newim, st.2)

/-- The paste loop of draw_tile over the fetched tiles in submission order,
starting from no canvas and the default base_size [256, 256]. -/
def compose (tiles : List ((ℤ × ℤ) × Option TileImg)) (bb : ℤ × ℤ × ℤ × ℤ) :
    Option Canvas × (ℤ × ℤ) :=
  tiles.foldl (fun acc t => paste_tile acc.1 acc.2 t.2 t.1 bb) (none, (256, 256))

/-- Python round: round half to even. -/
noncomputable def pyround (x : ℝ) : ℤ :=
  if Int.fract x = 1 / 2 then (if 2 ∣ ⌊x⌋ then ⌊x⌋ else ⌊x⌋ + 1) else round x

/-- The cropped result: the source canvas and the crop rectangle. The
RGBA-to-RGB flattening of a fully opaque crop acts on pixel data that this
model abstracts away. -/
structure CropResult where
  src : Canvas
  x2 : ℤ
  y2 : ℤ
  w : ℤ
  h : ℤ

/-- finish_picture: crops the canvas to the fractional bbox. Calling it
with no canvas is the AttributeError raised by bigim.crop when bigim is
None. -/
noncomputable def finish_picture (bigim : Option Canvas) (base_size : ℤ × ℤ)
    (bb : ℤ × ℤ × ℤ × ℤ) (x0 y0 x1 y1 : ℝ) : Except String CropResult :=
  match bigim with
  | none => Except.error "AttributeError: crop on NoneType"
  | some im =>
    let xfrac := x0 - (bb.1 : ℝ)
    let yfrac := y0 - (bb.2.1 : ℝ)
    let x2 := pyround ((base_size.1 : ℝ) * xfrac)
    let y2 := pyround ((base_size.2 : ℝ) * yfrac)
    let imgw := pyround ((base_size.1 : ℝ) * (x1 - x0))
    let imgh := pyround ((base_size.2 : ℝ) * (y1 - y0))
    Except.ok (CropResult.mk im x2 y2 imgw imgh)

/-- Sequencing of fallible steps, mirroring the loop over futures in
draw_tile: the first raised exception propagates. -/
def gather {α β : Type} (g : α → Except String β) : List α → Except String (List β)
  | [] => Except.ok []
  | a :: l =>
    match g a with
    | Except.error e => Except.error e
    | Except.ok b =>
      match gather g l with
      | Except.error e => Except.error e
      | Except.ok bs => Except.ok (b :: bs)

/-- One fetch: get_tile on the attempt sequence of a corner, then decoding
(Image.open, a parameter here) of the returned bytes when a tile came back. -/
def tile_fetch (dec : List Nat → TileImg) (p : (ℤ × ℤ) × (ℕ → Option Response)) :
    Except String ((ℤ × ℤ) × Option TileImg) :=
  match get_tile p.2 with
  | Except.error e => Except.error e
  | Except.ok c => Except.ok (p.1, c.map dec)

/-- draw_tile from fetching to cropping: fetch every corner, paste in
submission order, then crop. -/
noncomputable def draw_tile_run (dec : List Nat → TileImg)
    (fetches : List ((ℤ × ℤ) × (ℕ → Option Response)))
    (bb : ℤ × ℤ × ℤ × ℤ) (x0 y0 x1 y1 : ℝ) : Except String CropResult :=
  match gather (tile_fetch dec) fetches with
  | Except.error e => Except.error e
  | Except.ok tiles =>
    let r := compose tiles bb
    finish_picture r.1 r.2 bb x0 y0 x1 y1

end Urbanworm

namespace Urbanworm

/-- Claim C1: the spec says an unrecognized non-URL string source raises a
fatal input-validation error before any network activity. The code does
not: the string falls through the dispatch unchanged and is later used as
a tile URL template; the ValueError fires only when source is not a string.
This theorem evaluates the dispatch at such a failing input and shows the
string branch can never produce an error. -/
theorem c1_unrecognized_source_not_rejected :
    resolve_source [] (SourceArg.str "localtiles") = Except.ok "localtiles" ∧
    ∀ bm s, ∃ u, resolve_source bm (SourceArg.str s) = Except.ok u := by
  have hx0 : xyz_tiles.lookup (str_upper "localtiles") = none := by decide
  refine ⟨by simp [resolve_source, hx0], ?_⟩
  intro bm s
  cases hx : xyz_tiles.lookup (str_upper s) with
  | some url => exact ⟨url, by simp [resolve_source, hx]⟩
  | none =>
    cases hb : bm.lookup s with
    | some url => exact ⟨url, by simp [resolve_source, hx, hb]⟩
    | none => exact ⟨s, by simp [resolve_source, hx, hb]⟩

/-- Claim C5: when the output file exists and overwrite is false, the
operation returns via the early branch without writing: the file system is
unchanged, and running the step twice leaves it unchanged as well. -/
theorem c5_skip_existing (fs : FS) (output : String) (b1 b2 : List Nat)
    (h : fs_exists fs output = true) :
    tms_write_step fs output false b1 = (fs, true) ∧
    (tms_write_step (tms_write_step fs output false b1).1 output false b2).1 = fs := by
  have h1 : tms_write_step fs output false b1 = (fs, true) := by
    unfold tms_write_step
    rw [if_pos ⟨rfl, h⟩]
  refine ⟨h1, ?_⟩
  rw [h1]
  unfold tms_write_step
  rw [if_pos ⟨rfl, h⟩]

/-- Witness for c5_skip_existing at a concrete file system. -/
theorem c5_skip_existing_witness :
    tms_write_step [("out.tif", [1, 2, 3])] "out.tif" false [9] =
      ([("out.tif", [1, 2, 3])], true) ∧
    (tms_write_step
        (tms_write_step [("out.tif", [1, 2, 3])] "out.tif" false [9]).1
        "out.tif" false [7]).1 = [("out.tif", [1, 2, 3])] :=
  c5_skip_existing [("out.tif", [1, 2, 3])] "out.tif" [9] [7] (by decide)

/-- Claim C10: with return_image set, the pipeline performs exactly the base
raster write and the image return; the reprojection and COG-conversion
steps are skipped for every requested CRS and to_cog flag. -/
theorem c10_return_image_skips_postprocessing (crs : String) (to_cog : Bool) :
    tms_pipeline_steps true crs to_cog = [PostStep.writeBase, PostStep.returnImage] := by
  rfl

/-- Bounds needed for the C4 counterexample: log base 2 of 3 lies strictly
between 1 and 2. -/
theorem logb_two_three_bounds : (1:ℝ) < Real.logb 2 3 ∧ Real.logb 2 3 < 2 := by
  constructor
  · have h := Real.logb_lt_logb (b := 2) (by norm_num) (x := 2) (by norm_num) (y := 3) (by norm_num)
    rwa [Real.logb_self_eq_one (by norm_num)] at h
  · have h := Real.logb_lt_logb (b := 2) (by norm_num) (x := 3) (by norm_num) (y := 4) (by norm_num)
    have h4 : Real.logb 2 4 = 2 := by
      rw [show (4:ℝ) = 2 ^ (2:ℕ) by norm_num, Real.logb_pow,
        Real.logb_self_eq_one (by norm_num)]
      norm_num
    rwa [h4] at h

/-- Claim C4 counterexample: at resolution three times the zoom-0 value,
the code truncates log2(1/3) toward zero and yields -1, while the floor
demanded by the claim is -2. -/
theorem c4_floor_counterexample :
    resolution_to_zoom_level (3 * initial_resolution) = Except.ok (-1) ∧
    ⌊Real.logb 2 (initial_resolution / (3 * initial_resolution))⌋ = -2 := by
  have hpos : (0:ℝ) < initial_resolution := by norm_num [initial_resolution]
  have hne : initial_resolution ≠ 0 := ne_of_gt hpos
  have h13 : initial_resolution / (3 * initial_resolution) = (3:ℝ)⁻¹ := by
    field_simp
    ring
  have hlog : Real.logb 2 (initial_resolution / (3 * initial_resolution)) =
      -Real.logb 2 3 := by
    rw [h13, Real.logb_inv]
  obtain ⟨hl1, hl2⟩ := logb_two_three_bounds
  constructor
  · unfold resolution_to_zoom_level
    rw [if_neg (by positivity), if_neg (by push_neg; positivity), hlog]
    have hfl : ⌊Real.logb 2 3⌋ = 1 := Int.floor_eq_iff.mpr ⟨by push_cast; linarith, by push_cast; linarith⟩
    unfold float_to_int
    rw [if_neg (by linarith), Int.ceil_neg, hfl]
  · rw [hlog]
    exact Int.floor_eq_iff.mpr ⟨by push_cast; linarith, by push_cast; linarith⟩

/-- Claim C4 (amended): for r greater than 0 the zoom is the toward-zero
truncation of log2(initial divided by r); this equals the floor whenever r
is at most the zoom-0 resolution (so the log is nonnegative); for r at most
0 the conversion raises. -/
theorem c4_zoom_conversion (r : ℝ) :
    (0 < r → resolution_to_zoom_level r =
        Except.ok (float_to_int (Real.logb 2 (initial_resolution / r)))) ∧
    (0 < r → r ≤ initial_resolution → resolution_to_zoom_level r =
        Except.ok ⌊Real.logb 2 (initial_resolution / r)⌋) ∧
    (r ≤ 0 → ∃ e, resolution_to_zoom_level r = Except.error e) := by
  refine ⟨?_, ?_, ?_⟩
  · intro hr
    unfold resolution_to_zoom_level
    rw [if_neg (ne_of_gt hr), if_neg (not_lt.mpr (le_of_lt hr))]
  · intro hr hle
    have hone : (1:ℝ) ≤ initial_resolution / r := (one_le_div hr).mpr hle
    have hnn : 0 ≤ Real.logb 2 (initial_resolution / r) :=
      Real.logb_nonneg (by norm_num) hone
    unfold resolution_to_zoom_level float_to_int
    rw [if_neg (ne_of_gt hr), if_neg (not_lt.mpr (le_of_lt hr)), if_pos hnn]
  · intro hr
    rcases eq_or_lt_of_le hr with heq | hlt
    · exact ⟨"ZeroDivisionError", by unfold resolution_to_zoom_level; rw [if_pos heq]⟩
    · exact ⟨"ValueError: math domain error", by
        unfold resolution_to_zoom_level
        rw [if_neg (ne_of_lt hlt), if_pos hlt]⟩

/-! ### Helper lemmas about the fetch loop and the paste fold -/

theorem fetch_first (att : ℕ → Option Response) (r : Response) (h : att 0 = some r) :
    fetch_with_retry att 3 0 = Except.ok r := by
  have e1 : fetch_with_retry att 3 0 =
      match att 0 with
      | some r2 => Except.ok r2
      | none => fetch_with_retry att 2 1 := rfl
  rw [e1, h]

theorem fetch_third (att : ℕ → Option Response) (r : Response)
    (h0 : att 0 = none) (h1 : att 1 = none) (h2 : att 2 = some r) :
    fetch_with_retry att 3 0 = Except.ok r := by
  have e1 : fetch_with_retry att 3 0 =
      match att 0 with
      | some r2 => Except.ok r2
      | none => fetch_with_retry att 2 1 := rfl
  have e2 : fetch_with_retry att 2 1 =
      match att 1 with
      | some r2 => Except.ok r2
      | none => fetch_with_retry att 1 2 := rfl
  have e3 : fetch_with_retry att 1 2 =
      match att 2 with
      | some r2 => Except.ok r2
      | none => Except.error "NetworkError" := rfl
  rw [e1, h0, e2, h1, e3, h2]

theorem fetch_all_fail (att : ℕ → Option Response)
    (h0 : att 0 = none) (h1 : att 1 = none) (h2 : att 2 = none) :
    fetch_with_retry att 3 0 = Except.error "NetworkError" := by
  have e1 : fetch_with_retry att 3 0 =
      match att 0 with
      | some r2 => Except.ok r2
      | none => fetch_with_retry att 2 1 := rfl
  have e2 : fetch_with_retry att 2 1 =
      match att 1 with
      | some r2 => Except.ok r2
      | none => fetch_with_retry att 1 2 := rfl
  have e3 : fetch_with_retry att 1 2 =
      match att 2 with
      | some r2 => Except.ok r2
      | none => Except.error "NetworkError" := rfl
  rw [e1, h0, e2, h1, e3, h2]

theorem get_tile_of_fetch_ok (att : ℕ → Option Response) (r : Response)
    (h : fetch_with_retry att 3 0 = Except.ok r) :
    get_tile att = process_response r := by
  unfold get_tile
  rw [h]

theorem get_tile_of_fetch_error (att : ℕ → Option Response) (e : String)
    (h : fetch_with_retry att 3 0 = Except.error e) :
    get_tile att = Except.error e := by
  unfold get_tile
  rw [h]

theorem process_response_absent (r : Response) (h : r.status = 404 ∨ r.content = []) :
    process_response r = Except.ok none := by
  unfold process_response
  rcases h with h | h
  · rw [if_pos h]
  · by_cases h4 : r.status = 404
    · rw [if_pos h4]
    · rw [if_neg h4, if_pos h]

theorem gather_cons_ok {α β : Type} (g : α → Except String β) (a : α) (l : List α)
    (b : β) (t : List β) (hga : g a = Except.ok b) (hl : gather g l = Except.ok t) :
    gather g (a :: l) = Except.ok (b :: t) := by
  unfold gather
  rw [hga, hl]

theorem gather_cons_error_head {α β : Type} (g : α → Except String β) (a : α)
    (l : List α) (e : String) (hga : g a = Except.error e) :
    gather g (a :: l) = Except.error e := by
  unfold gather
  rw [hga]

theorem gather_cons_error_tail {α β : Type} (g : α → Except String β) (a : α)
    (l : List α) (b : β) (e : String) (hga : g a = Except.ok b)
    (hl : gather g l = Except.error e) :
    gather g (a :: l) = Except.error e := by
  unfold gather
  rw [hga, hl]

theorem gather_exists {α β : Type} (g : α → Except String β) (l : List α)
    (h : ∀ a ∈ l, ∃ b, g a = Except.ok b) :
    ∃ t, gather g l = Except.ok t ∧
      List.Forall₂ (fun a b => g a = Except.ok b) l t := by
  induction l with
  | nil => exact ⟨[], rfl, List.Forall₂.nil⟩
  | cons a l ih =>
    obtain ⟨b, hb⟩ := h a (List.mem_cons_self a l)
    obtain ⟨t, ht, hf⟩ := ih (fun x hx => h x (List.mem_cons_of_mem a hx))
    exact ⟨b :: t, gather_cons_ok g a l b t hb ht, List.Forall₂.cons hb hf⟩

theorem gather_ok_append {α β : Type} (g : α → Except String β) {l1 l2 : List α}
    {t1 t2 : List β} (h1 : gather g l1 = Except.ok t1)
    (h2 : gather g l2 = Except.ok t2) :
    gather g (l1 ++ l2) = Except.ok (t1 ++ t2) := by
  induction l1 generalizing t1 with
  | nil =>
    cases h1
    simpa using h2
  | cons a l ih =>
    unfold gather at h1
    cases hga : g a with
    | error e =>
      rw [hga] at h1
      cases h1
    | ok b =>
      rw [hga] at h1
      cases hgl : gather g l with
      | error e =>
        rw [hgl] at h1
        cases h1
      | ok tl =>
        rw [hgl] at h1
        cases h1
        rw [List.cons_append]
        exact gather_cons_ok g a (l ++ l2) b (tl ++ t2) hga (ih hgl)

theorem gather_append_error {α β : Type} (g : α → Except String β) {l1 l2 : List α}
    {t1 : List β} {e : String} (h1 : gather g l1 = Except.ok t1)
    (h2 : gather g l2 = Except.error e) :
    gather g (l1 ++ l2) = Except.error e := by
  induction l1 generalizing t1 with
  | nil => simpa using h2
  | cons a l ih =>
    unfold gather at h1
    cases hga : g a with
    | error e2 =>
      rw [hga] at h1
      cases h1
    | ok b =>
      rw [hga] at h1
      cases hgl : gather g l with
      | error e2 =>
        rw [hgl] at h1
        cases h1
      | ok tl =>
        rw [List.cons_append]
        exact gather_cons_error_tail g a (l ++ l2) b e hga (ih hgl)

theorem gather_congr_middle {α β : Type} (g : α → Except String β) (l1 l2 : List α)
    (a a2 : α) (h : g a = g a2) :
    gather g (l1 ++ a :: l2) = gather g (l1 ++ a2 :: l2) := by
  induction l1 with
  | nil =>
    simp only [List.nil_append]
    unfold gather
    rw [h]
  | cons x l ih =>
    simp only [List.cons_append]
    unfold gather
    rw [ih]

theorem forall2_mem_left {α β : Type} {R : α → β → Prop} {l : List α} {t : List β}
    (h : List.Forall₂ R l t) {a : α} (ha : a ∈ l) : ∃ b ∈ t, R a b := by
  induction h with
  | nil => cases ha
  | cons hR hrest ih =>
    rcases List.mem_cons.mp ha with rfl | ha2
    · exact ⟨_, List.mem_cons_self _ _, hR⟩
    · obtain ⟨b, hb, hRb⟩ := ih ha2
      exact ⟨b, List.mem_cons_of_mem _ hb, hRb⟩

theorem forall2_mem_right {α β : Type} {R : α → β → Prop} {l : List α} {t : List β}
    (h : List.Forall₂ R l t) {b : β} (hb : b ∈ t) : ∃ a ∈ l, R a b := by
  induction h with
  | nil => cases hb
  | cons hR hrest ih =>
    rcases List.mem_cons.mp hb with rfl | hb2
    · exact ⟨_, List.mem_cons_self _ _, hR⟩
    · obtain ⟨a, ha, hRa⟩ := ih hb2
      exact ⟨a, List.mem_cons_of_mem _ ha, hRa⟩

theorem paste_some_isSome (bigim : Option Canvas) (base : ℤ × ℤ) (im : TileImg)
    (corner : ℤ × ℤ) (bb : ℤ × ℤ × ℤ × ℤ) :
    ((paste_tile bigim base (some im) corner bb).1).isSome = true := rfl

theorem foldl_paste_isSome (bb : ℤ × ℤ × ℤ × ℤ)
    (tiles : List ((ℤ × ℤ) × Option TileImg)) :
    ∀ acc : Option Canvas × (ℤ × ℤ),
      (acc.1.isSome = true ∨ ∃ q ∈ tiles, q.2.isSome = true) →
      ((tiles.foldl (fun acc t => paste_tile acc.1 acc.2 t.2 t.1 bb) acc).1).isSome
        = true := by
  induction tiles with
  | nil =>
    intro acc h
    rcases h with h | ⟨q, hq, _⟩
    · exact h
    · cases hq
  | cons t l ih =>
    intro acc h
    simp only [List.foldl_cons]
    rcases ht : t.2 with _ | im
    · have hstep : paste_tile acc.1 acc.2 none t.1 bb = acc := Prod.mk.eta
      rw [hstep]
      apply ih
      rcases h with h | ⟨q, hq, hqs⟩
      · exact Or.inl h
      · rcases List.mem_cons.mp hq with rfl | hq2
        · rw [ht] at hqs
          cases hqs
        · exact Or.inr ⟨q, hq2, hqs⟩
    · apply ih
      left
      exact paste_some_isSome acc.1 acc.2 im t.1 bb

theorem compose_isSome (tiles : List ((ℤ × ℤ) × Option TileImg)) (bb : ℤ × ℤ × ℤ × ℤ)
    (h : ∃ q ∈ tiles, q.2.isSome = true) : ((compose tiles bb).1).isSome = true :=
  foldl_paste_isSome bb tiles (none, (256, 256)) (Or.inr h)

theorem compose_middle_none (t1 t2 : List ((ℤ × ℤ) × Option TileImg)) (c : ℤ × ℤ)
    (bb : ℤ × ℤ × ℤ × ℤ) :
    compose (t1 ++ (c, none) :: t2) bb = compose (t1 ++ t2) bb := by
  unfold compose
  rw [List.foldl_append, List.foldl_append, List.foldl_cons]
  rfl

theorem foldl_paste_all_none (bb : ℤ × ℤ × ℤ × ℤ)
    (tiles : List ((ℤ × ℤ) × Option TileImg)) (h : ∀ q ∈ tiles, q.2 = none) :
    ∀ acc : Option Canvas × (ℤ × ℤ),
      tiles.foldl (fun acc t => paste_tile acc.1 acc.2 t.2 t.1 bb) acc = acc := by
  induction tiles with
  | nil =>
    intro acc
    rfl
  | cons t l ih =>
    intro acc
    have ht := h t (List.mem_cons_self t l)
    simp only [List.foldl_cons]
    have hstep : paste_tile acc.1 acc.2 t.2 t.1 bb = acc := by
      rw [ht]
      exact Prod.mk.eta
    rw [hstep]
    exact ih (fun q hq => h q (List.mem_cons_of_mem t hq)) acc

theorem draw_tile_run_eq_finish (dec : List Nat → TileImg)
    (fetches : List ((ℤ × ℤ) × (ℕ → Option Response)))
    (tiles : List ((ℤ × ℤ) × Option TileImg)) (bb : ℤ × ℤ × ℤ × ℤ) (x0 y0 x1 y1 : ℝ)
    (hgat : gather (tile_fetch dec) fetches = Except.ok tiles) :
    draw_tile_run dec fetches bb x0 y0 x1 y1 =
      finish_picture (compose tiles bb).1 (compose tiles bb).2 bb x0 y0 x1 y1 := by
  unfold draw_tile_run
  rw [hgat]

theorem draw_tile_run_of_gather_error (dec : List Nat → TileImg)
    (fetches : List ((ℤ × ℤ) × (ℕ → Option Response))) (bb : ℤ × ℤ × ℤ × ℤ)
    (x0 y0 x1 y1 : ℝ) (e : String)
    (hgat : gather (tile_fetch dec) fetches = Except.error e) :
    draw_tile_run dec fetches bb x0 y0 x1 y1 = Except.error e := by
  unfold draw_tile_run
  rw [hgat]

/-- The half-angle argument of the source equals the spec form: radians of
(45 + lat / 2) is pi / 4 plus half the latitude in radians. -/
theorem radians_half_angle (lat : ℝ) :
    radians (45 + lat / 2) = Real.pi / 4 + radians lat / 2 := by
  unfold radians
  ring

/-- Claim C2: for every bbox corner pair and image size, the geotransform
written by draw_tile equals the spec formula built from the forward
spherical-Mercator projection of the corners. -/
theorem c2_geotransform_matches_spec (lat0 lon0 lat1 lon1 : ℝ) (w h : ℕ) :
    draw_tile_geotransform lat0 lon0 lat1 lon1 w h =
      spec_geotransform lat0 lon0 lat1 lon1 w h := by
  unfold draw_tile_geotransform spec_geotransform from4326_to3857 spec_mercator
  rw [radians_half_angle, radians_half_angle]
  simp only [mul_comm _ EARTH_EQUATORIAL_RADIUS]

/-- Membership in the embedded Python range over the integers. -/
theorem mem_int_range (lo hi i : ℤ) : i ∈ int_range lo hi ↔ lo ≤ i ∧ i < hi := by
  unfold int_range
  constructor
  · intro h
    rcases List.mem_map.mp h with ⟨k, hk, he⟩
    rw [List.mem_range] at hk
    omega
  · rintro ⟨h1, h2⟩
    refine List.mem_map.mpr ⟨(i - lo).toNat, ?_, ?_⟩
    · rw [List.mem_range]
      omega
    · omega

/-- Membership in the floor/ceil index range of fractional coordinates. -/
theorem mem_tile_range (a b : ℝ) (i : ℤ) :
    i ∈ tile_range a b ↔ ⌊a⌋ ≤ i ∧ i < ⌈b⌉ := mem_int_range ⌊a⌋ ⌈b⌉ i

/-- Claim C3: the tile indices requested by draw_tile are exactly the
Cartesian product of the integer ranges from floor of the sorted lower
fractional coordinates to ceil of the upper ones. -/
theorem c3_tile_cover (lat0 lon0 lat1 lon1 : ℝ) (zoom : ℕ) (p : ℤ × ℤ) :
    p ∈ draw_tile_corners lat0 lon0 lat1 lon1 zoom ↔
      ((⌊min (deg2num lat0 lon0 zoom).1 (deg2num lat1 lon1 zoom).1⌋ ≤ p.1 ∧
        p.1 < ⌈max (deg2num lat0 lon0 zoom).1 (deg2num lat1 lon1 zoom).1⌉) ∧
       (⌊min (deg2num lat0 lon0 zoom).2 (deg2num lat1 lon1 zoom).2⌋ ≤ p.2 ∧
        p.2 < ⌈max (deg2num lat0 lon0 zoom).2 (deg2num lat1 lon1 zoom).2⌉)) := by
  obtain ⟨px, py⟩ := p
  unfold draw_tile_corners corner_product
  constructor
  · intro h
    rcases List.mem_flatMap.mp h with ⟨x, hx, hin⟩
    rcases List.mem_map.mp hin with ⟨y, hy, he⟩
    have h1 : x = px := congrArg Prod.fst he
    have h2 : y = py := congrArg Prod.snd he
    subst h1
    subst h2
    exact ⟨(mem_tile_range _ _ _).mp hx, (mem_tile_range _ _ _).mp hy⟩
  · rintro ⟨hx, hy⟩
    exact List.mem_flatMap.mpr ⟨px, (mem_tile_range _ _ _).mpr hx,
      List.mem_map.mpr ⟨py, (mem_tile_range _ _ _).mpr hy, rfl⟩⟩

/-- Claim C7 counterexample: an error status other than 404 (here 500) with
an empty body is treated as an absent tile, not as a fatal error, because
the empty-body check precedes raise_for_status. -/
theorem c7_empty_body_error_status_absent :
    get_tile (fun _ => some (Response.mk 500 [])) = Except.ok none := rfl

/-- Claim C7 (amended): a response with an error status other than 404 and
a non-empty body fails fatally on the first attempt; later attempts are
never consulted, so there is no retry. -/
theorem c7_error_status_fatal (att : ℕ → Option Response) (r : Response)
    (h0 : att 0 = some r) (h4 : 400 ≤ r.status) (h6 : r.status < 600)
    (hn : ¬r.status = 404) (hc : ¬r.content = []) :
    get_tile att = Except.error "HTTPError" := by
  rw [get_tile_of_fetch_ok att r (fetch_first att r h0)]
  unfold process_response
  rw [if_neg hn, if_neg hc, if_pos ⟨h4, h6⟩]

/-- Witness for c7_error_status_fatal at a concrete 500 response. -/
theorem c7_error_status_fatal_witness :
    get_tile (fun _ => some (Response.mk 500 [9])) = Except.error "HTTPError" :=
  c7_error_status_fatal (fun _ => some (Response.mk 500 [9])) (Response.mk 500 [9])
    rfl (by norm_num) (by norm_num) (by norm_num) (by simp)

/-- Claim C8: transient failures are retried transparently up to 3 attempts
in total. If the first two attempts raise and the third returns a response,
get_tile behaves exactly as on an immediately successful fetch and the
whole mosaic pipeline produces the same result; if all three attempts
raise, the NetworkError propagates and aborts the pipeline. -/
theorem c8_retry_semantics (att : ℕ → Option Response) (r : Response)
    (pre post : List ((ℤ × ℤ) × (ℕ → Option Response))) (corner : ℤ × ℤ)
    (dec : List Nat → TileImg) (bb : ℤ × ℤ × ℤ × ℤ) (x0 y0 x1 y1 : ℝ)
    (hpre : ∀ p ∈ pre, ∃ c, get_tile p.2 = Except.ok c) :
    ((att 0 = none ∧ att 1 = none ∧ att 2 = some r) →
        get_tile att = get_tile (fun _ => some r) ∧
        draw_tile_run dec (pre ++ (corner, att) :: post) bb x0 y0 x1 y1 =
          draw_tile_run dec
            (pre ++ ((corner, fun _ => some r) : (ℤ × ℤ) × (ℕ → Option Response)) :: post)
            bb x0 y0 x1 y1) ∧
    ((att 0 = none ∧ att 1 = none ∧ att 2 = none) →
        get_tile att = Except.error "NetworkError" ∧
        draw_tile_run dec (pre ++ (corner, att) :: post) bb x0 y0 x1 y1 =
          Except.error "NetworkError") := by
  constructor
  · rintro ⟨h0, h1, h2⟩
    have hgt : get_tile att = get_tile (fun _ => some r) := by
      rw [get_tile_of_fetch_ok att r (fetch_third att r h0 h1 h2),
        get_tile_of_fetch_ok (fun _ => some r) r (fetch_first _ r rfl)]
    refine ⟨hgt, ?_⟩
    unfold draw_tile_run
    rw [gather_congr_middle (tile_fetch dec) pre post (corner, att)
      ((corner, fun _ => some r) : (ℤ × ℤ) × (ℕ → Option Response))
      (by unfold tile_fetch; rw [hgt])]
  · rintro ⟨h0, h1, h2⟩
    have hgt : get_tile att = Except.error "NetworkError" :=
      get_tile_of_fetch_error att _ (fetch_all_fail att h0 h1 h2)
    have hmid : tile_fetch dec (corner, att) = Except.error "NetworkError" := by
      unfold tile_fetch
      rw [hgt]
    refine ⟨hgt, ?_⟩
    have hfetch : ∀ p ∈ pre, ∃ b, tile_fetch dec p = Except.ok b := by
      intro p hp
      obtain ⟨c, hc⟩ := hpre p hp
      exact ⟨(p.1, c.map dec), by unfold tile_fetch; rw [hc]⟩
    obtain ⟨t1, hg1, _⟩ := gather_exists (tile_fetch dec) pre hfetch
    exact draw_tile_run_of_gather_error dec _ bb x0 y0 x1 y1 _
      (gather_append_error (tile_fetch dec) hg1
        (gather_cons_error_head (tile_fetch dec) _ post _ hmid))

/-- Witness for c8_retry_semantics: a fetch failing twice then returning a
200 response with body [1] equals the failure-free run, and a fetch whose
three attempts all raise propagates NetworkError through the pipeline. -/
theorem c8_retry_semantics_witness :
    (get_tile (fun i => if i < 2 then none else some (Response.mk 200 [1])) =
        get_tile (fun _ => some (Response.mk 200 [1])) ∧
      draw_tile_run (fun _ => TileImg.mk 256 256 Mode.RGB false)
          ([] ++ (((0, 0), fun i => if i < 2 then none else some (Response.mk 200 [1])) :
            (ℤ × ℤ) × (ℕ → Option Response)) :: []) (0, 0, 1, 1) 0 0 1 1 =
        draw_tile_run (fun _ => TileImg.mk 256 256 Mode.RGB false)
          ([] ++ (((0, 0), fun _ => some (Response.mk 200 [1])) :
            (ℤ × ℤ) × (ℕ → Option Response)) :: []) (0, 0, 1, 1) 0 0 1 1) ∧
    (get_tile (fun _ => none) = Except.error "NetworkError" ∧
      draw_tile_run (fun _ => TileImg.mk 256 256 Mode.RGB false)
          ([] ++ (((0, 0), fun _ => (none : Option Response)) :
            (ℤ × ℤ) × (ℕ → Option Response)) :: []) (0, 0, 1, 1) 0 0 1 1 =
        Except.error "NetworkError") := by
  constructor
  · exact (c8_retry_semantics (fun i => if i < 2 then none else some (Response.mk 200 [1]))
      (Response.mk 200 [1]) [] [] (0, 0) (fun _ => TileImg.mk 256 256 Mode.RGB false)
      (0, 0, 1, 1) 0 0 1 1 (by intro p hp; cases hp)).1 ⟨rfl, rfl, rfl⟩
  · exact (c8_retry_semantics (fun _ => none) (Response.mk 200 [1]) [] [] (0, 0)
      (fun _ => TileImg.mk 256 256 Mode.RGB false)
      (0, 0, 1, 1) 0 0 1 1 (by intro p hp; cases hp)).2 ⟨rfl, rfl, rfl⟩

/-- Claim C6: a tile whose response is a 404 or has an empty body is
absent, not an error; the mosaic it produces is identical to the one
produced without that tile (its canvas region stays blank), and provided
the remaining tiles succeed (each returns a tile) the whole operation
completes successfully. -/
theorem c6_absent_tile_tolerated (att : ℕ → Option Response) (r : Response)
    (pre post : List ((ℤ × ℤ) × (ℕ → Option Response))) (corner : ℤ × ℤ)
    (dec : List Nat → TileImg) (bb : ℤ × ℤ × ℤ × ℤ) (x0 y0 x1 y1 : ℝ)
    (h0 : att 0 = some r) (habs : r.status = 404 ∨ r.content = [])
    (hne : pre ++ post ≠ [])
    (hsucc : ∀ p ∈ pre ++ post, ∃ c, get_tile p.2 = Except.ok (some c)) :
    get_tile att = Except.ok none ∧
    draw_tile_run dec (pre ++ (corner, att) :: post) bb x0 y0 x1 y1 =
      draw_tile_run dec (pre ++ post) bb x0 y0 x1 y1 ∧
    ∃ res, draw_tile_run dec (pre ++ (corner, att) :: post) bb x0 y0 x1 y1 =
      Except.ok res := by
  have hget : get_tile att = Except.ok none := by
    rw [get_tile_of_fetch_ok att r (fetch_first att r h0)]
    exact process_response_absent r habs
  have hmid : tile_fetch dec (corner, att) = Except.ok (corner, none) := by
    unfold tile_fetch
    rw [hget]
    rfl
  have hfetch1 : ∀ p ∈ pre, ∃ b, tile_fetch dec p = Except.ok b := by
    intro p hp
    obtain ⟨c, hc⟩ := hsucc p (List.mem_append_left post hp)
    exact ⟨(p.1, some (dec c)), by unfold tile_fetch; rw [hc]; rfl⟩
  have hfetch2 : ∀ p ∈ post, ∃ b, tile_fetch dec p = Except.ok b := by
    intro p hp
    obtain ⟨c, hc⟩ := hsucc p (List.mem_append_right pre hp)
    exact ⟨(p.1, some (dec c)), by unfold tile_fetch; rw [hc]; rfl⟩
  obtain ⟨t1, hg1, hf1⟩ := gather_exists (tile_fetch dec) pre hfetch1
  obtain ⟨t2, hg2, hf2⟩ := gather_exists (tile_fetch dec) post hfetch2
  have hgatAbs : gather (tile_fetch dec) (pre ++ (corner, att) :: post) =
      Except.ok (t1 ++ ((corner, none) : (ℤ × ℤ) × Option TileImg) :: t2) :=
    gather_ok_append (tile_fetch dec) hg1
      (gather_cons_ok (tile_fetch dec) _ post _ t2 hmid hg2)
  have hgat2 : gather (tile_fetch dec) (pre ++ post) = Except.ok (t1 ++ t2) :=
    gather_ok_append (tile_fetch dec) hg1 hg2
  have hEq : draw_tile_run dec (pre ++ (corner, att) :: post) bb x0 y0 x1 y1 =
      draw_tile_run dec (pre ++ post) bb x0 y0 x1 y1 := by
    rw [draw_tile_run_eq_finish dec _ _ bb x0 y0 x1 y1 hgatAbs,
      draw_tile_run_eq_finish dec _ _ bb x0 y0 x1 y1 hgat2,
      compose_middle_none t1 t2 corner bb]
  refine ⟨hget, hEq, ?_⟩
  obtain ⟨p0, hp0⟩ := List.exists_mem_of_ne_nil (pre ++ post) hne
  obtain ⟨c0, hc0⟩ := hsucc p0 hp0
  have hp0fetch : tile_fetch dec p0 = Except.ok (p0.1, some (dec c0)) := by
    unfold tile_fetch
    rw [hc0]
    rfl
  have hsomeAll : ∃ q ∈ t1 ++ t2, q.2.isSome = true := by
    rcases List.mem_append.mp hp0 with hL | hR
    · obtain ⟨b, hb, hbR⟩ := forall2_mem_left hf1 hL
      have hbv : b = (p0.1, some (dec c0)) := by
        rw [hp0fetch] at hbR
        exact (Except.ok.inj hbR).symm
      exact ⟨b, List.mem_append_left t2 hb, by rw [hbv]; rfl⟩
    · obtain ⟨b, hb, hbR⟩ := forall2_mem_left hf2 hR
      have hbv : b = (p0.1, some (dec c0)) := by
        rw [hp0fetch] at hbR
        exact (Except.ok.inj hbR).symm
      exact ⟨b, List.mem_append_right t1 hb, by rw [hbv]; rfl⟩
  obtain ⟨cv, hcv⟩ := Option.isSome_iff_exists.mp (compose_isSome (t1 ++ t2) bb hsomeAll)
  rw [hEq, draw_tile_run_eq_finish dec _ _ bb x0 y0 x1 y1 hgat2, hcv]
  exact ⟨_, rfl⟩

/-- Witness for c6_absent_tile_tolerated: one 404 tile next to one
successful 200 tile. -/
theorem c6_absent_tile_tolerated_witness :
    get_tile (fun _ => some (Response.mk 404 [])) = Except.ok none ∧
    draw_tile_run (fun _ => TileImg.mk 256 256 Mode.RGB false)
        ([] ++ (((0, 0), fun _ => some (Response.mk 404 [])) :
          (ℤ × ℤ) × (ℕ → Option Response)) ::
          [(((1, 0) : ℤ × ℤ), fun _ => some (Response.mk 200 [1]))])
        (0, 0, 2, 1) 0 0 2 1 =
      draw_tile_run (fun _ => TileImg.mk 256 256 Mode.RGB false)
        ([] ++ [(((1, 0) : ℤ × ℤ), fun _ => some (Response.mk 200 [1]))])
        (0, 0, 2, 1) 0 0 2 1 ∧
    ∃ res, draw_tile_run (fun _ => TileImg.mk 256 256 Mode.RGB false)
        ([] ++ (((0, 0), fun _ => some (Response.mk 404 [])) :
          (ℤ × ℤ) × (ℕ → Option Response)) ::
          [(((1, 0) : ℤ × ℤ), fun _ => some (Response.mk 200 [1]))])
        (0, 0, 2, 1) 0 0 2 1 = Except.ok res := by
  refine c6_absent_tile_tolerated (fun _ => some (Response.mk 404 []))
    (Response.mk 404 []) [] [(((1, 0) : ℤ × ℤ), fun _ => some (Response.mk 200 [1]))]
    (0, 0) (fun _ => TileImg.mk 256 256 Mode.RGB false) (0, 0, 2, 1) 0 0 2 1
    rfl (Or.inl rfl) (by simp) ?_
  intro p hp
  rw [List.nil_append, List.mem_singleton] at hp
  subst hp
  exact ⟨[1], rfl⟩

/-- Claim C9: when every tile in the range is absent, no canvas is ever
created (the compose fold returns none) and the crop step fails with the
AttributeError on the missing canvas, so the operation does not complete
and produces no all-blank raster. -/
theorem c9_all_absent_fails (fetches : List ((ℤ × ℤ) × (ℕ → Option Response)))
    (dec : List Nat → TileImg) (bb : ℤ × ℤ × ℤ × ℤ) (x0 y0 x1 y1 : ℝ)
    (habs : ∀ p ∈ fetches, get_tile p.2 = Except.ok none) :
    (∃ tiles, gather (tile_fetch dec) fetches = Except.ok tiles ∧
        (compose tiles bb).1 = none) ∧
    draw_tile_run dec fetches bb x0 y0 x1 y1 =
      Except.error "AttributeError: crop on NoneType" := by
  have hfetch : ∀ p ∈ fetches, ∃ b, tile_fetch dec p = Except.ok b := by
    intro p hp
    exact ⟨(p.1, none), by unfold tile_fetch; rw [habs p hp]; rfl⟩
  obtain ⟨t, hg, hf⟩ := gather_exists (tile_fetch dec) fetches hfetch
  have hnone : ∀ q ∈ t, q.2 = (none : Option TileImg) := by
    intro q hq
    obtain ⟨a, ha, hr⟩ := forall2_mem_right hf hq
    have hfa : tile_fetch dec a = Except.ok (a.1, none) := by
      unfold tile_fetch
      rw [habs a ha]
      rfl
    rw [hfa] at hr
    rw [← Except.ok.inj hr]
  have hcomp : compose t bb = ((none : Option Canvas), ((256 : ℤ), (256 : ℤ))) :=
    foldl_paste_all_none bb t hnone (none, (256, 256))
  refine ⟨⟨t, hg, by rw [hcomp]⟩, ?_⟩
  rw [draw_tile_run_eq_finish dec fetches t bb x0 y0 x1 y1 hg, hcomp]
  rfl

/-- Witness for c9_all_absent_fails: a single corner answered by 404. -/
theorem c9_all_absent_fails_witness :
    (∃ tiles, gather (tile_fetch (fun _ => TileImg.mk 256 256 Mode.RGB false))
        [(((0, 0) : ℤ × ℤ), fun _ => some (Response.mk 404 [7]))] = Except.ok tiles ∧
        (compose tiles (0, 0, 1, 1)).1 = none) ∧
    draw_tile_run (fun _ => TileImg.mk 256 256 Mode.RGB false)
        [(((0, 0) : ℤ × ℤ), fun _ => some (Response.mk 404 [7]))] (0, 0, 1, 1) 0 0 1 1 =
      Except.error "AttributeError: crop on NoneType" := by
  refine c9_all_absent_fails [(((0, 0) : ℤ × ℤ), fun _ => some (Response.mk 404 [7]))]
    (fun _ => TileImg.mk 256 256 Mode.RGB false) (0, 0, 1, 1) 0 0 1 1 ?_
  intro p hp
  rw [List.mem_singleton] at hp
  subst hp
  rfl

/-- Witness for c4_zoom_conversion at resolution 2 (in the floor regime)
and at resolution -1 (the failure regime). -/
theorem c4_zoom_conversion_witness :
    resolution_to_zoom_level 2 = Except.ok ⌊Real.logb 2 (initial_resolution / 2)⌋ ∧
    ∃ e, resolution_to_zoom_level (-1) = Except.error e :=
  ⟨(c4_zoom_conversion 2).2.1 (by norm_num) (by norm_num [initial_resolution]),
   (c4_zoom_conversion (-1)).2.2 (by norm_num)⟩

end Urbanworm
